import Mathlib

/-!
Verification development for the PerPlexity_Local repository.

We shallowly embed the query classifier (`youtube_utils.extract_youtube_video_id`,
`search_engine.extract_youtube_url`), the per-source extractor
(`web_extractor.fetch_and_extract_text`), the Ollama streaming loop
(`ollama_client.synthesize_with_ollama_stream`), and the session controller
(`main.perform_search_and_synthesis` and the interactive loop in `main.main`).

External effects (HTTP fetches, the transcript API, the generation backend,
HTML parsing by BeautifulSoup) are modelled as explicit environment data: each
embedded function takes the outcomes of its effectful calls as parameters and
reproduces the source's control flow (including its try/except structure,
modelled with `Except`) on top of them.
-/

/-! ## Python string primitives used by the source -/

/-- Python `str.isspace` characters relevant to `str.split()` / `str.strip()`
(ASCII whitespace). -/
def pyIsSpace (c : Char) : Bool :=
  c = ' ' || c = '\t' || c = '\n' || c = '\x0d' || c = '\x0b' || c = '\x0c'

/-- Helper for `pySplit`: `acc` holds the characters of the current word in
reverse. -/
def pySplitAux (acc : List Char) : List Char → List String
  | [] => if acc.isEmpty then [] else [String.mk acc.reverse]
  | c :: cs =>
    if pyIsSpace c then
      if acc.isEmpty then pySplitAux [] cs
      else String.mk acc.reverse :: pySplitAux [] cs
    else pySplitAux (c :: acc) cs

/-- Python `s.split()` with no argument: split on runs of whitespace,
discarding empty pieces. -/
def pySplit (s : String) : List String :=
  pySplitAux [] s.data

/-- Python `s.strip()`: drop whitespace from both ends. -/
def pyStrip (s : String) : String :=
  String.mk (((s.data.dropWhile pyIsSpace).reverse.dropWhile pyIsSpace).reverse)

/-- Python `s.lower()` (ASCII). -/
def pyLower (s : String) : String :=
  String.mk (s.data.map Char.toLower)

/-- Python slicing `s[:n]` by code points. -/
def pySlice (n : Nat) (s : String) : String :=
  String.mk (s.data.take n)

/-- Python `sep.join(parts)`. -/
def pyJoin (sep : String) : List String → String
  | [] => ""
  | [x] => x
  | x :: y :: rest => x ++ sep ++ pyJoin sep (y :: rest)

/-- Match a literal string, returning the remainder on success. -/
def litMatch : List Char → List Char → Option (List Char)
  | [], s => some s
  | _ :: _, [] => none
  | l :: ls, c :: cs => if l = c then litMatch ls cs else none

/-- Left-to-right non-overlapping replacement, fuelled by the input length so
that the recursion is structural (each step consumes at least one character
when `old` is non-empty, so the fuel never runs out in our uses). -/
def replaceAllFuel (old rep : List Char) : Nat → List Char → List Char
  | 0, s => s
  | _ + 1, [] => []
  | fuel + 1, c :: cs =>
    match litMatch old (c :: cs) with
    | some rest => rep ++ replaceAllFuel old rep fuel rest
    | none => c :: replaceAllFuel old rep fuel cs

/-- Python `s.replace(old, rep)` (all occurrences, left to right). -/
def pyReplace (s old rep : String) : String :=
  String.mk (replaceAllFuel old.data rep.data s.data.length s.data)

/-! ## `config.py` constants used by the embedded code -/

def MAX_LEN_PER_SOURCE : Nat := 20000

def MAX_HISTORY_TURNS : Nat := 3

/-! ## `youtube_utils.extract_youtube_video_id`

The source matches the anchored Python regex
`(https?://)?(www\.)?(youtube|youtu|youtube-nocookie)\.(com|be)/(watch\?v=|embed/|v/|.+\?v=)?([^&=%\?]{11})`
against the input with `re.match` and returns group 6 on success.  We embed
the pattern as a backtracking matcher over `List Char`: each regex piece maps
a remainder to the list of possible remainders in the engine's backtracking
priority order, pieces are sequenced with `List.bind` (depth-first,
leftmost-first, exactly the regex engine's exploration order), and the first
remainder whose next 11 characters avoid `&`, `=`, `%`, `?` yields group 6. -/

/-- Ordered alternation of literals: remainders of the alternatives that
match, in listed order. -/
def altLits (lits : List (List Char)) (s : List Char) : List (List Char) :=
  lits.filterMap (fun l => litMatch l s)

/-- A mandatory literal as a one-or-zero-remainder list. -/
def reqLit (l : List Char) (s : List Char) : List (List Char) :=
  (litMatch l s).toList

/-- `(https?://)?`: greedy optional, `s?` greedy inside. -/
def optScheme (s : List Char) : List (List Char) :=
  altLits ["https://".data, "http://".data] s ++ [s]

/-- `(www\.)?`: greedy optional literal. -/
def optWww (s : List Char) : List (List Char) :=
  (litMatch "www.".data s).toList ++ [s]

/-- `(youtube|youtu|youtube-nocookie)` in the pattern's alternation order. -/
def hostAlt (s : List Char) : List (List Char) :=
  altLits ["youtube".data, "youtu".data, "youtube-nocookie".data] s

/-- `(com|be)`. -/
def tldAlt (s : List Char) : List (List Char) :=
  altLits ["com".data, "be".data] s

/-- `.+\?v=`: greedy `.+` (any character except newline, longest first),
then the literal `?v=`.  Remainders in backtracking order. -/
def dotPlusVEq (s : List Char) : List (List Char) :=
  (((List.range s.length).map (fun k => k + 1)).reverse).filterMap (fun k =>
    if (s.take k).all (fun c => c ≠ '\n') then
      match litMatch "?v=".data (s.drop k) with
      | some r => some r
      | none => none
    else none)

/-- `(watch\?v=|embed/|v/|.+\?v=)?`: the four alternatives in order, then the
empty (skip) branch of the greedy `?`. -/
def optPathShape (s : List Char) : List (List Char) :=
  altLits ["watch?v=".data, "embed/".data, "v/".data] s ++ dotPlusVEq s ++ [s]

/-- A character allowed in the 11-character id class `[^&=%\?]`. -/
def idChar (c : Char) : Bool :=
  !(c = '&' || c = '=' || c = '%' || c = '?')

/-- Group 6: the first remainder (in backtracking order) opening with 11
id-class characters; the match is a prefix match, trailing input is ignored. -/
def group6 (rems : List (List Char)) : Option (List Char) :=
  rems.findSome? (fun r =>
    let cand := r.take 11
    if cand.length = 11 && cand.all idChar then some cand else none)

/-- `youtube_utils.extract_youtube_video_id` (identical in `main.py`). -/
def extract_youtube_video_id (url : String) : Option String :=
  let s := url.data
  let rems :=
    (((((optScheme s).flatMap optWww).flatMap hostAlt).flatMap
        (reqLit ".".data)).flatMap tldAlt).flatMap
      (fun r => ((reqLit "/".data r).flatMap optPathShape))
  (group6 rems).map String.mk

/-! ## `search_engine.extract_youtube_url` (the query classifier) -/

/-- The fixed default summarization instruction substituted when the query
remainder is empty or a bare "summarize" synonym. -/
def default_summary_query : String :=
  "Provide a detailed summary of this video, covering all main points and key information in a comprehensive way"

/-- The source's `for word in query_words: ... break` loop: the first
whitespace-delimited token from which a video id can be extracted. -/
def findYoutubeWord : List String → Option String
  | [] => none
  | w :: ws =>
    if (extract_youtube_video_id w).isSome then some w else findYoutubeWord ws

/-- `search_engine.extract_youtube_url`: returns the detected video URL (if
any) and the updated query.  `query.replace(youtube_url, "")` replaces all
occurrences; the remainder is stripped, and an empty or bare-"summarize"
remainder is replaced by the default instruction. -/
def extract_youtube_url (query : String) : Option String × String :=
  match findYoutubeWord (pySplit query) with
  | none => (none, query)
  | some w =>
    let updated := pyStrip (pyReplace query w "")
    if updated = "" ∨
        pyLower updated ∈ (["summarize", "summarise", "summary"] : List String) then
      (some w, default_summary_query)
    else
      (some w, updated)

/-! ## `ollama_client.synthesize_with_ollama_stream`

The generator's body has two layers of failure handling.  Setup failures
(connection error, timeout, HTTP error status, other request failures) are
caught and re-raised, so the caller observes an exception.  Inside the
line-reading loop, each non-empty line is JSON-decoded and processed;
`json.JSONDecodeError` is caught and the loop continues with the next line,
while any other exception during record processing is caught and the loop
exits with `break` — the generator then simply finishes.

A stream line is modelled by its decode outcome: Python-falsy (skipped by
`if line:`), a decode/processing attempt that raises, or a well-formed
record with an optional `response` text and a `done` flag. -/

/-- Exceptions that record processing can raise inside the loop. -/
inductive PyExc where
  | jsonDecodeError
  | otherError
  deriving DecidableEq, Repr

/-- A well-formed backend record `{response?: text, done?: bool}`. -/
structure OllamaRec where
  response : Option String
  done : Bool
  deriving DecidableEq, Repr

/-- One line from `response.iter_lines()`. -/
inductive Line where
  | empty
  | content (d : Except PyExc OllamaRec)

/-- How the chunk sequence terminates from the caller's point of view:
`normal` when the generator finishes (the caller's `for` loop completes),
`raised` when an exception propagates to the caller. -/
inductive StreamOutcome where
  | normal
  | raised
  deriving DecidableEq, Repr

/-- The chunks yielded while processing one well-formed record: the value of
its `response` field when present. -/
def optChunk : Option String → List String
  | some t => [t]
  | none => []

/-- The `for line in response.iter_lines():` loop: returns the chunks yielded
in order and the way the sequence terminates. -/
def streamLoop : List Line → List String × StreamOutcome
  | [] => ([], .normal)
  | .empty :: rest => streamLoop rest
  | .content (.error .jsonDecodeError) :: rest => streamLoop rest
  | .content (.error .otherError) :: _ => ([], .normal)
  | .content (.ok r) :: rest =>
    if r.done then (optChunk r.response, .normal)
    else (optChunk r.response ++ (streamLoop rest).1, (streamLoop rest).2)

/-- Outcome of the streaming request setup (the outer try block before and
around the loop). -/
inductive SetupResult where
  | connectionError
  | timeoutError
  | httpErrorStatus
  | requestError
  | streamOk (lines : List Line)

/-- `ollama_client.synthesize_with_ollama_stream` as observed by its caller:
setup failures are re-raised (`raise e` in every outer except clause), a
successfully opened stream runs the line loop. -/
def synthesize_with_ollama_stream : SetupResult → List String × StreamOutcome
  | .connectionError => ([], .raised)
  | .timeoutError => ([], .raised)
  | .httpErrorStatus => ([], .raised)
  | .requestError => ([], .raised)
  | .streamOk lines => streamLoop lines

/-- The caller's accumulation `full_response += chunk` over the yielded
chunks (`main.perform_search_and_synthesis`). -/
def accumulate (chunks : List String) : String :=
  chunks.foldl (fun acc c => acc ++ c) ""

/-! ## `web_extractor.fetch_and_extract_text`

The per-source extractor.  Its effectful collaborators are modelled as an
environment:

  * `transcript` — the result of `fetch_youtube_transcript(video_id)`.  That
    function catches every exception internally and returns either the
    formatted transcript text or `None`, so it is modelled as the returned
    `Option String`.
  * `metadata` — the attempt, inside the video branch's `try`, to run
    `get_youtube_metadata(url)` and format the combined text; `.error` models
    an exception raised there (caught by the branch's `except`, which returns
    the bare transcript instead).
  * `fetch` — the outcome of `requests.get` for the generic branch:
    a raised `RequestException`, or an `HttpResponse` carrying the status
    check, the `Content-Type` header, the body text, the result of
    `json.dumps(response.json(), indent=2)` (`none` when `response.json()`
    raises), and the outcome of the BeautifulSoup cascade on an HTML body
    (`none` when parsing raises, otherwise the list `all_text` of assembled
    pieces, which the source then space-joins, whitespace-collapses,
    empty-checks and truncates).

Raises inside the generic branch's `try` are modelled in `Except`; the
branch's two `except` clauses (RequestException and the catch-all) both
return `None`. -/

/-- Exceptions distinguished by the generic branch's handlers. -/
inductive FetchExc where
  | requestException
  | otherException

/-- The observable outcome of `requests.get` plus response processing. -/
structure HttpResponse where
  /-- `response.raise_for_status()` does not raise. -/
  statusOk : Bool
  /-- `response.headers.get('Content-Type', '')`. -/
  contentType : String
  /-- `response.text`. -/
  text : String
  /-- `json.dumps(response.json(), indent=2)`; `none` models a raise. -/
  jsonDump : Option String
  /-- BeautifulSoup cascade outcome on an HTML body: `none` models a raise
  anywhere in the soup section, `some all_text` the assembled text pieces. -/
  soupPieces : Option (List String)

/-- Environment of one `fetch_and_extract_text` call. -/
structure ExtractEnv where
  transcript : Option String
  metadata : Except Unit (String × String)
  fetch : Except Unit HttpResponse

/-- Python `needle in haystack` on strings. -/
def pyContains (haystack needle : String) : Bool :=
  (List.range (haystack.data.length + 1)).any
    (fun k => (litMatch needle.data (haystack.data.drop k)).isSome)

/-- Truncation to the per-source cap: Python `s[:MAX_LEN_PER_SOURCE]`. -/
def capText (s : String) : String :=
  pySlice MAX_LEN_PER_SOURCE s

/-- The generic-document branch inside its `try`: every `raise` is an
`Except.error`, every `return` an `Except.ok`.  A JSON body that fails to
parse falls past the inner `try/except: pass` to the final `return None` of
the non-HTML block. -/
def generic_branch (env : ExtractEnv) : Except FetchExc (Option String) :=
  match env.fetch with
  | .error _ => .error FetchExc.requestException
  | .ok r =>
    if !r.statusOk then .error FetchExc.requestException
    else if !(pyContains r.contentType "text/html") then
      if pyContains r.contentType "application/json" then
        match r.jsonDump with
        | some d => .ok (some (capText d))
        | none => .ok none
      else if pyContains r.contentType "text/" then .ok (some (capText r.text))
      else .ok none
    else
      match r.soupPieces with
      | none => .error FetchExc.otherException
      | some all_text =>
        let text := pyJoin " " (pySplit (pyJoin " " all_text))
        if text = "" then .ok none
        else .ok (some (capText text))

/-- The generic branch with its two `except` handlers, both returning `None`. -/
def generic_processing (env : ExtractEnv) : Option String :=
  match generic_branch env with
  | .ok v => v
  | .error FetchExc.requestException => none
  | .error FetchExc.otherException => none

/-- The video branch's combination of page metadata and transcript:
`f"YOUTUBE VIDEO: {title_text}\n\n"` plus the description block when
non-empty, plus the transcript. -/
def videoText (title desc transcript : String) : String :=
  "YOUTUBE VIDEO: " ++ title ++ "\n\n" ++
    (if desc ≠ "" then desc ++ "\n\n" else "") ++ transcript

/-- `web_extractor.fetch_and_extract_text` (same control flow as the copy in
`main.py`).  Result is `Except` so that "an exception escapes the function"
is expressible; the claim of interest is that it never does. -/
def fetch_and_extract_text (url : String) (env : ExtractEnv) :
    Except FetchExc (Option String) :=
  match extract_youtube_video_id url with
  | some _ =>
    match env.transcript with
    | some transcript =>
      (match env.metadata with
        | .ok (title_text, description) =>
          .ok (some (capText (videoText title_text description transcript)))
        | .error _ =>
          .ok (some (capText transcript)))
    | none => .ok (generic_processing env)
  | none => .ok (generic_processing env)

/-! ## `main.perform_search_and_synthesis` and the interactive loop

`perform_search_and_synthesis` (from `main.py`, the file containing the
interactive loop) is modelled from the point where the list of source URLs is
fixed (the preceding classify/search step supplies it; its failures return
early with `None` just like the all-sources-fail path).  Each source carries
its extraction environment; the streaming setup outcome is a `SetupResult`.

Crucially, the Python function has no `return` statement carrying a value:
every path returns `None`.  The accumulated `full_response` is only printed.
The model records the accumulated text (`printed`), whether
`synthesize_with_ollama_stream` was invoked (`synthesizeCalled`), and the
Python return value (`ret`). -/

/-- `fetch_and_extract_text` as its caller sees it (no exception escapes; the
error arm is dead by `extractor_never_raises` below). -/
def extractValue (url : String) (env : ExtractEnv) : Option String :=
  match fetch_and_extract_text url env with
  | .ok v => v
  | .error _ => none

/-- Observable outcome of one `perform_search_and_synthesis` call. -/
structure TurnResult where
  synthesizeCalled : Bool
  printed : String
  ret : Option String

/-- `main.perform_search_and_synthesis` from content fetching onward: collect
per-source extractions, abort when none survive, otherwise stream and
accumulate.  The function body never returns `full_response`; both the
success path and the `except` path fall off the end, so `ret` is `none` on
every path. -/
def perform_search_and_synthesis (sources : List (String × ExtractEnv))
    (setup : SetupResult) : TurnResult :=
  if (sources.filterMap (fun p => extractValue p.1 p.2)).isEmpty then
    { synthesizeCalled := false, printed := "", ret := none }
  else
    { synthesizeCalled := true,
      printed := accumulate (synthesize_with_ollama_stream setup).1,
      ret := none }

/-- Session state of `main.main`.  `globalHistoryEnabled` is the module-level
`HISTORY_ENABLED` read during prompt assembly.  `localHistoryEnabled` is the
function-local slot that the statement `HISTORY_ENABLED = not HISTORY_ENABLED`
targets inside `main` (the `global HISTORY_ENABLED` declaration is commented
out, so by Python scoping the assignment makes the name local to `main`);
`none` means the local is unbound, so reading it raises `UnboundLocalError`. -/
structure SessionState where
  history : List (String × String)
  globalHistoryEnabled : Bool
  localHistoryEnabled : Option Bool
  deriving DecidableEq

/-- Inputs consumed by one iteration of the interactive loop. -/
structure TurnInput where
  query : String
  sources : List (String × ExtractEnv)
  setup : SetupResult

/-- Whether the loop continues or exits after an iteration. -/
inductive LoopAct where
  | exitLoop
  | next
  deriving DecidableEq

/-- History trimming in `main.main`: append happened already; if the length
exceeds `MAX_HISTORY_TURNS`, keep the last `MAX_HISTORY_TURNS` entries
(`conversation_history[-MAX_HISTORY_TURNS:]`). -/
def trimHistory (h : List (String × String)) : List (String × String) :=
  if MAX_HISTORY_TURNS < h.length then h.drop (h.length - MAX_HISTORY_TURNS)
  else h

/-- One iteration of the `while True` loop in `main.main`.  The
`toggle history` branch evaluates `not HISTORY_ENABLED` by reading the
function-local slot: unbound → `UnboundLocalError`, absorbed by the loop's
`except Exception` handler, state unchanged; bound → the *local* is flipped
(the assignment cannot touch the module-level global either way). -/
def loopBody (st : SessionState) (inp : TurnInput) : SessionState × LoopAct :=
  if pyLower inp.query = "exit" then (st, LoopAct.exitLoop)
  else if pyLower inp.query = "clear history" then
    ({ st with history := [] }, LoopAct.next)
  else if pyLower inp.query = "toggle history" then
    match st.localHistoryEnabled with
    | none => (st, LoopAct.next)
    | some b => ({ st with localHistoryEnabled := some (!b) }, LoopAct.next)
  else if inp.query = "" then (st, LoopAct.next)
  else
    match (perform_search_and_synthesis inp.sources inp.setup).ret with
    | some resp =>
      ({ st with history := trimHistory (st.history ++ [(inp.query, resp)]) },
        LoopAct.next)
    | none => (st, LoopAct.next)

/-- Run the interactive loop over a list of inputs (stopping early on
`exit`). -/
def runSession (st : SessionState) : List TurnInput → SessionState
  | [] => st
  | inp :: rest =>
    match loopBody st inp with
    | (st2, LoopAct.exitLoop) => st2
    | (st2, LoopAct.next) => runSession st2 rest

/-- The history block built by `synthesize_with_ollama_stream` when
assembling the prompt: rendered only when the history is non-empty and the
module-level `HISTORY_ENABLED` is true. -/
def history_text (history : List (String × String)) (historyEnabled : Bool) :
    String :=
  if !history.isEmpty && historyEnabled then
    "CONVERSATION HISTORY:\n" ++
      (history.map
        (fun qa => "User: " ++ qa.1 ++ "\nAssistant: " ++ qa.2 ++ "\n\n")).foldl
        (fun acc s => acc ++ s) "" ++
      "---\n\n"
  else ""

/-- Scenario data: the backend stream emitting `{"response":"Hel"}`,
`{"response":"lo"}`, `{"done":true}`. -/
def helloLines : List Line :=
  [Line.content (.ok ⟨some "Hel", false⟩),
   Line.content (.ok ⟨some "lo", false⟩),
   Line.content (.ok ⟨none, true⟩)]

/-- Scenario data: an environment in which a generic source extracts
successfully. -/
def srcEnvOk : ExtractEnv :=
  ⟨none, .error (), .ok ⟨true, "text/html", "", none, some ["some", "context"]⟩⟩

/-! ## Helper lemmas -/

/-- Truncation to the per-source cap never exceeds the cap. -/
theorem capText_length (s : String) : (capText s).length ≤ MAX_LEN_PER_SOURCE := by
  show (s.data.take MAX_LEN_PER_SOURCE).length ≤ MAX_LEN_PER_SOURCE
  rw [List.length_take]
  exact min_le_left _ _

/-- The line loop itself never raises: consumption always terminates the
chunk sequence normally (setup failures are the only raised ones). -/
theorem streamLoop_outcome_normal (lines : List Line) :
    (streamLoop lines).2 = StreamOutcome.normal := by
  induction lines with
  | nil => rfl
  | cons l rest ih =>
    cases l with
    | empty => simpa [streamLoop] using ih
    | content d =>
      match d with
      | .error .jsonDecodeError => simpa [streamLoop] using ih
      | .error .otherError => rfl
      | .ok r =>
        by_cases h : r.done
        · simp [streamLoop, h]
        · simp [streamLoop, h, ih]

/-- Records after a done-flagged record never influence the loop's result. -/
theorem streamLoop_stops_at_done (pre post post2 : List Line) (r : OllamaRec)
    (hd : r.done = true) :
    streamLoop (pre ++ Line.content (.ok r) :: post) =
      streamLoop (pre ++ Line.content (.ok r) :: post2) := by
  induction pre with
  | nil => simp [streamLoop, hd]
  | cons l pre ih =>
    cases l with
    | empty => simpa [streamLoop] using ih
    | content d =>
      match d with
      | .error .jsonDecodeError => simpa [streamLoop] using ih
      | .error .otherError => rfl
      | .ok r2 =>
        by_cases h : r2.done
        · simp [streamLoop, h]
        · simp [streamLoop, h, ih]

/-- Left folding `acc ++ c` from a seed equals the seed followed by the
right-fold concatenation. -/
theorem foldl_append_from (chunks : List String) : ∀ s : String,
    chunks.foldl (fun acc c => acc ++ c) s =
      s ++ chunks.foldr (fun c acc => c ++ acc) "" := by
  induction chunks with
  | nil => intro s; simp [String.append_empty]
  | cons c cs ih =>
    intro s
    simp only [List.foldl_cons, List.foldr_cons, ih (s ++ c), String.append_assoc]

/-- The caller's `full_response += chunk` accumulation is the exact
concatenation of the chunks in yield order. -/
theorem accumulate_eq_concat (chunks : List String) :
    accumulate chunks = chunks.foldr (fun c acc => c ++ acc) "" := by
  rw [accumulate, foldl_append_from chunks "", String.empty_append]

/-- The first component of `extract_youtube_url` is the first word with an
extractable video id. -/
theorem extract_youtube_url_fst (q : String) :
    (extract_youtube_url q).1 = findYoutubeWord (pySplit q) := by
  unfold extract_youtube_url
  split
  next h => rw [h]
  next w h => rw [h]; dsimp only; split <;> rfl

/-- The break-on-first-match loop coincides with `List.find?`. -/
theorem findYoutubeWord_eq_find (ws : List String) :
    findYoutubeWord ws =
      ws.find? (fun w => (extract_youtube_video_id w).isSome) := by
  induction ws with
  | nil => rfl
  | cons w ws ih =>
    by_cases h : (extract_youtube_video_id w).isSome
    · rw [findYoutubeWord, if_pos h,
        List.find?_cons_of_pos (p := fun w => (extract_youtube_video_id w).isSome) _ h]
    · rw [findYoutubeWord, if_neg h, ih,
        List.find?_cons_of_neg (p := fun w => (extract_youtube_video_id w).isSome) _ h]

/-! ## Claims -/

/-- C3: classifying the query "https://youtu.be/dQw4w9WgXcQ summarize" yields
videoUrl "https://youtu.be/dQw4w9WgXcQ" and, because the remainder after URL
removal is the bare word "summarize", the effective query is the fixed
default summarization instruction. -/
theorem C3_summarize_scenario :
    extract_youtube_url "https://youtu.be/dQw4w9WgXcQ summarize" =
      (some "https://youtu.be/dQw4w9WgXcQ", default_summary_query) ∧
    default_summary_query =
      "Provide a detailed summary of this video, covering all main points and key information in a comprehensive way" := by
  exact ⟨by decide, rfl⟩

/-- C5: for every query containing at least one whitespace-delimited token
with a recognized video-URL shape, classification extracts exactly the first
such token (by position, `List.find?`) as the video URL, and at most one
token is ever extracted (the result is a single optional URL). -/
theorem C5_first_video_token (q : String)
    (h : ∃ w ∈ pySplit q, (extract_youtube_video_id w).isSome) :
    (extract_youtube_url q).1 =
      (pySplit q).find? (fun w => (extract_youtube_video_id w).isSome) ∧
    ((extract_youtube_url q).1).isSome = true := by
  have heq : (extract_youtube_url q).1 =
      (pySplit q).find? (fun w => (extract_youtube_video_id w).isSome) := by
    rw [extract_youtube_url_fst, findYoutubeWord_eq_find]
  refine ⟨heq, ?_⟩
  rw [heq, List.find?_isSome]
  simpa using h

/-- C5 witness: a concrete query whose matching token is not in first
position. -/
theorem C5_witness :
    (∃ w ∈ pySplit "watch https://youtu.be/dQw4w9WgXcQ now",
        (extract_youtube_video_id w).isSome) ∧
    ((extract_youtube_url "watch https://youtu.be/dQw4w9WgXcQ now").1 =
        (pySplit "watch https://youtu.be/dQw4w9WgXcQ now").find?
          (fun w => (extract_youtube_video_id w).isSome) ∧
      ((extract_youtube_url "watch https://youtu.be/dQw4w9WgXcQ now").1).isSome =
        true) :=
  ⟨by decide, C5_first_video_token _ (by decide)⟩

/-- Concrete stream for C4: a good record, then a record whose processing
raises a non-JSON-decode exception, then another good record. -/
def abortLines : List Line :=
  [Line.content (.ok ⟨some "a", false⟩),
   Line.content (.error .otherError),
   Line.content (.ok ⟨some "b", false⟩)]

/-- C4 counterexample: on a stream containing a record-processing failure
other than malformed JSON, the code stops yielding (the later chunk "b" is
lost) but the chunk sequence terminates normally — the caller observes
ordinary successful termination, not a surfaced error, contradicting the
claim that such a failure aborts the stream with an error surfaced to the
caller. -/
theorem C4_counterexample :
    synthesize_with_ollama_stream (SetupResult.streamOk abortLines) =
      (["a"], StreamOutcome.normal) := by
  rfl

/-- C4 (amended): a malformed JSON record is skipped and the stream
continues; a record-processing failure other than malformed JSON halts
consumption immediately (no further records are processed), but the loop
never raises: the chunk sequence always terminates normally from the
caller's point of view, with no error surfaced. -/
theorem C4_skip_and_silent_halt (rest : List Line) :
    streamLoop (Line.content (.error .jsonDecodeError) :: rest) =
      streamLoop rest ∧
    streamLoop (Line.content (.error .otherError) :: rest) =
      ([], StreamOutcome.normal) ∧
    ∀ lines : List Line, (streamLoop lines).2 = StreamOutcome.normal :=
  ⟨rfl, rfl, streamLoop_outcome_normal⟩

/-- C8: the accumulated answer is the exact concatenation, in yield order, of
the chunks yielded by the stream, and a done-flagged record halts consumption
immediately: any records buffered after it (here `post` versus `post2`) are
never processed, so they change nothing about the loop's result. -/
theorem C8_concat_and_done_halts (pre post post2 : List Line) (r : OllamaRec)
    (chunks : List String) (hd : r.done = true) :
    streamLoop (pre ++ Line.content (.ok r) :: post) =
      streamLoop (pre ++ Line.content (.ok r) :: post2) ∧
    accumulate chunks = chunks.foldr (fun c acc => c ++ acc) "" :=
  ⟨streamLoop_stops_at_done pre post post2 r hd, accumulate_eq_concat chunks⟩

/-- C8 witness: the scenario stream with a done-flagged record followed by a
buffered record, and the "Hel"/"lo" chunk list. -/
theorem C8_witness :
    ((⟨some "x", true⟩ : OllamaRec).done = true) ∧
    (streamLoop ([] ++ Line.content (.ok ⟨some "x", true⟩) ::
          [Line.content (.ok ⟨some "y", false⟩)]) =
        streamLoop ([] ++ Line.content (.ok ⟨some "x", true⟩) :: []) ∧
      accumulate ["Hel", "lo"] =
        ["Hel", "lo"].foldr (fun c acc => c ++ acc) "") :=
  ⟨rfl,
    C8_concat_and_done_halts [] [Line.content (.ok ⟨some "y", false⟩)] []
      ⟨some "x", true⟩ ["Hel", "lo"] rfl⟩

/-- C9: extraction never raises past the extractor boundary: for every URL
and every environment (covering network errors, bad statuses, JSON parse
errors, soup parse errors, empty cascades, unsupported content types and
transcript failures), `fetch_and_extract_text` returns a value — `some` text
or the definitive no-content `none` — and never an exception. -/
theorem C9_extractor_never_raises (url : String) (env : ExtractEnv) :
    ∃ v, fetch_and_extract_text url env = .ok v := by
  unfold fetch_and_extract_text
  split
  · split
    · split
      · exact ⟨_, rfl⟩
      · exact ⟨_, rfl⟩
    · exact ⟨_, rfl⟩
  · exact ⟨_, rfl⟩

/-- Every `some` result of the generic branch is a truncation, hence within
the cap. -/
theorem generic_branch_cap (env : ExtractEnv) (v : String)
    (h : generic_branch env = .ok (some v)) :
    v.length ≤ MAX_LEN_PER_SOURCE := by
  unfold generic_branch at h
  split at h
  · simp at h
  · split at h
    · simp at h
    · split at h
      · split at h
        · split at h
          · simp only [Except.ok.injEq, Option.some.injEq] at h
            subst h
            exact capText_length _
          · simp at h
        · split at h
          · simp only [Except.ok.injEq, Option.some.injEq] at h
            subst h
            exact capText_length _
          · simp at h
      · split at h
        · simp at h
        · dsimp only at h
          split at h
          · simp at h
          · simp only [Except.ok.injEq, Option.some.injEq] at h
            subst h
            exact capText_length _

/-- Every `some` result of the generic branch after its handlers is within
the cap. -/
theorem generic_processing_cap (env : ExtractEnv) (v : String)
    (h : generic_processing env = some v) :
    v.length ≤ MAX_LEN_PER_SOURCE := by
  unfold generic_processing at h
  split at h
  next v2 heq =>
    subst h
    exact generic_branch_cap env v heq
  next heq => simp at h
  next heq => simp at h

/-- C6: every successful extraction result — transcript-plus-metadata video
text, bare transcript, pretty-printed JSON, plain-text passthrough, or
markup-cascade text — has length at most MAX_LEN_PER_SOURCE (20000),
enforced by truncation at the return boundary on every path. -/
theorem C6_extraction_length_capped (url : String) (env : ExtractEnv)
    (v : String) (h : fetch_and_extract_text url env = .ok (some v)) :
    v.length ≤ MAX_LEN_PER_SOURCE := by
  unfold fetch_and_extract_text at h
  split at h
  · split at h
    · split at h
      · simp only [Except.ok.injEq, Option.some.injEq] at h
        subst h
        exact capText_length _
      · simp only [Except.ok.injEq, Option.some.injEq] at h
        subst h
        exact capText_length _
    · simp only [Except.ok.injEq] at h
      exact generic_processing_cap env v h
  · simp only [Except.ok.injEq] at h
    exact generic_processing_cap env v h

/-- Environment for the C6 witness: a JSON response whose pretty-printed
dump is the short text "1". -/
def jsonEnv : ExtractEnv :=
  ⟨none, .error (), .ok ⟨true, "application/json", "", some "1", none⟩⟩

/-- C6 witness: a concrete JSON source whose extraction succeeds within the
cap. -/
theorem C6_witness :
    fetch_and_extract_text "http://example.com/data" jsonEnv =
      .ok (some "1") ∧
    ("1" : String).length ≤ MAX_LEN_PER_SOURCE :=
  ⟨by rfl, C6_extraction_length_capped "http://example.com/data" jsonEnv "1" (by rfl)⟩

/-- Environment for C2: a video source whose transcript fetch fails but
whose page fetch yields extractable HTML. -/
def videoNoTranscriptEnv : ExtractEnv :=
  ⟨none, .error (), .ok ⟨true, "text/html", "", none, some ["fallback", "text"]⟩⟩

/-- C2 counterexample: for the video URL "https://youtu.be/dQw4w9WgXcQ"
with a failed transcript fetch, extraction does not fail with a definitive
no-content result: it retries via the generic-document path and succeeds,
so the source would be included in the assembled context — contradicting
the claim that transcript failure is terminal with no generic fallback. -/
theorem C2_counterexample :
    (extract_youtube_video_id "https://youtu.be/dQw4w9WgXcQ").isSome = true ∧
    videoNoTranscriptEnv.transcript = none ∧
    fetch_and_extract_text "https://youtu.be/dQw4w9WgXcQ" videoNoTranscriptEnv =
      .ok (some "fallback text") :=
  ⟨by decide, rfl, by rfl⟩

/-- C2 (amended): for every video source whose transcript fetch fails,
extraction falls through to the generic-document path and returns exactly
that path's result; the source is excluded from the context only when the
generic path also yields no content. -/
theorem C2_transcript_failure_falls_back (url : String) (env : ExtractEnv)
    (hv : (extract_youtube_video_id url).isSome = true)
    (ht : env.transcript = none) :
    fetch_and_extract_text url env = .ok (generic_processing env) := by
  unfold fetch_and_extract_text
  split
  · rw [ht]
  · next heq => exact absurd hv (by rw [heq]; simp)

/-- C2 witness: the amended behavior at the concrete video URL with failed
transcript. -/
theorem C2_witness :
    ((extract_youtube_video_id "https://youtu.be/dQw4w9WgXcQ").isSome = true ∧
      videoNoTranscriptEnv.transcript = none) ∧
    fetch_and_extract_text "https://youtu.be/dQw4w9WgXcQ" videoNoTranscriptEnv =
      .ok (generic_processing videoNoTranscriptEnv) :=
  ⟨⟨by decide, rfl⟩,
    C2_transcript_failure_falls_back _ _ (by decide) rfl⟩

/-- C7: when every per-source extraction returns no content, the turn
aborts: the synthesis streamer is never invoked (hence no prompt is
assembled and no backend call is made), nothing is printed, and the
function returns `None`. -/
theorem C7_no_backend_call (sources : List (String × ExtractEnv))
    (setup : SetupResult)
    (h : ∀ p ∈ sources, extractValue p.1 p.2 = none) :
    perform_search_and_synthesis sources setup =
      { synthesizeCalled := false, printed := "", ret := none } := by
  have hempty : sources.filterMap (fun p => extractValue p.1 p.2) = [] :=
    List.filterMap_eq_nil_iff.mpr h
  unfold perform_search_and_synthesis
  rw [hempty]
  rfl

/-- Environment whose fetch raises, so extraction yields no content. -/
def failEnv : ExtractEnv := ⟨none, .error (), .error ()⟩

/-- C7 witness: one source that fails extraction. -/
theorem C7_witness :
    (∀ p ∈ [("http://example.com/a", failEnv)], extractValue p.1 p.2 = none) ∧
    perform_search_and_synthesis [("http://example.com/a", failEnv)]
        (SetupResult.streamOk helloLines) =
      { synthesizeCalled := false, printed := "", ret := none } :=
  ⟨by decide, C7_no_backend_call _ _ (by decide)⟩

/-- `perform_search_and_synthesis` returns `None` on every path: the Python
function has no `return` statement carrying a value. -/
theorem perform_ret_none (sources : List (String × ExtractEnv))
    (setup : SetupResult) :
    (perform_search_and_synthesis sources setup).ret = none := by
  unfold perform_search_and_synthesis
  split <;> rfl

/-- C1: for the scenario stream emitting "Hel", "lo", done, the accumulated
answer is "Hello" as the claim states — but `perform_search_and_synthesis`
returns `None` (its body never returns `full_response`), so the `if
response:` guard in `main` is false and the (query, "Hello") pair is never
appended to the conversation history: after the turn the history is still
empty.  This evaluates the code at the claim's own scenario and exhibits the
divergence. -/
theorem C1_history_never_appended :
    (perform_search_and_synthesis [("http://example.com/a", srcEnvOk)]
        (SetupResult.streamOk helloLines)).printed = "Hello" ∧
    (perform_search_and_synthesis [("http://example.com/a", srcEnvOk)]
        (SetupResult.streamOk helloLines)).ret = none ∧
    runSession ⟨[], true, none⟩
        [⟨"what is rust", [("http://example.com/a", srcEnvOk)],
          SetupResult.streamOk helloLines⟩] = ⟨[], true, none⟩ :=
  ⟨rfl, rfl, rfl⟩

/-- One loop iteration never changes the module-level history flag and keeps
the function-local `HISTORY_ENABLED` slot unbound once it is unbound. -/
theorem loopBody_preserves (st : SessionState) (inp : TurnInput)
    (hl : st.localHistoryEnabled = none) :
    (loopBody st inp).1.globalHistoryEnabled = st.globalHistoryEnabled ∧
    (loopBody st inp).1.localHistoryEnabled = none := by
  unfold loopBody
  rw [hl, perform_ret_none]
  split_ifs <;> first
    | exact ⟨rfl, hl⟩
    | exact ⟨rfl, rfl⟩

/-- Whole-session invariant: starting with the local slot unbound, the
module-level history flag never changes and the local slot stays unbound. -/
theorem runSession_preserves (inputs : List TurnInput) : ∀ st : SessionState,
    st.localHistoryEnabled = none →
    (runSession st inputs).globalHistoryEnabled = st.globalHistoryEnabled ∧
    (runSession st inputs).localHistoryEnabled = none := by
  induction inputs with
  | nil => exact fun st hl => ⟨rfl, hl⟩
  | cons i rest ih =>
    intro st hl
    have hp := loopBody_preserves st i hl
    unfold runSession
    split
    next st2 heq =>
      rw [heq] at hp
      exact hp
    next st2 heq =>
      rw [heq] at hp
      exact ⟨(ih st2 hp.2).1.trans hp.1, (ih st2 hp.2).2⟩

/-- C10: entering "toggle history" leaves the session state entirely
unchanged and merely continues the loop — evaluating `not HISTORY_ENABLED`
reads the unbound function-local slot, raising UnboundLocalError, which the
loop's catch-all absorbs — and over the rest of the session the module-level
HISTORY_ENABLED consulted during prompt assembly never changes while the
local slot stays unbound, so whether prompts include history never changes. -/
theorem C10_toggle_history_inert (st : SessionState) (inp : TurnInput)
    (inputs : List TurnInput)
    (hq : pyLower inp.query = "toggle history")
    (hl : st.localHistoryEnabled = none) :
    loopBody st inp = (st, LoopAct.next) ∧
    (runSession st inputs).globalHistoryEnabled = st.globalHistoryEnabled ∧
    (runSession st inputs).localHistoryEnabled = none := by
  refine ⟨?_, (runSession_preserves inputs st hl).1,
    (runSession_preserves inputs st hl).2⟩
  have h1 : ¬ pyLower inp.query = "exit" := by rw [hq]; decide
  have h2 : ¬ pyLower inp.query = "clear history" := by rw [hq]; decide
  unfold loopBody
  rw [if_neg h1, if_neg h2, if_pos hq, hl]

/-- C10 witness: a session with non-empty history and the toggle command,
followed by a further turn. -/
theorem C10_witness :
    (pyLower "toggle history" = "toggle history" ∧
      (⟨[("q", "a")], true, none⟩ : SessionState).localHistoryEnabled = none) ∧
    (loopBody ⟨[("q", "a")], true, none⟩
          ⟨"toggle history", [], SetupResult.streamOk []⟩ =
        ((⟨[("q", "a")], true, none⟩ : SessionState), LoopAct.next) ∧
      (runSession ⟨[("q", "a")], true, none⟩
            [⟨"later question", [], SetupResult.streamOk []⟩]).globalHistoryEnabled =
        (⟨[("q", "a")], true, none⟩ : SessionState).globalHistoryEnabled ∧
      (runSession ⟨[("q", "a")], true, none⟩
            [⟨"later question", [], SetupResult.streamOk []⟩]).localHistoryEnabled =
        none) :=
  ⟨⟨by decide, rfl⟩, C10_toggle_history_inert _ _ _ (by decide) rfl⟩
